import Mathlib

/-!
Shallow embedding of the x8-pubg-discord-bot storage module (storage.js) and
PUBG API client (pubg-api.js), together with theorems settling the spec
claims about them.

Conventions of the embedding:
* JavaScript's `JSON` user database is a finite association list from Discord
  user ids to player records.
* The filesystem is an explicit `FS` state: the contents of `users.json`
  (absent, unparsable, or a parsed database) plus fault-injection flags for
  a read or write that raises an I/O error.
* `try { ... } catch` is modelled with `Except`: a primitive that can raise
  returns `Except String _`, and a JS `catch` that logs and continues is the
  explicit recovery `| .error _ => .ok ...`.
* `new Date().toISOString()` is an explicit `now : String` argument.
* JS truthiness on the values that actually flow through the code:
  a string is falsy exactly when it is `""`; `null`/absent is falsy; the
  number 0 is falsy.
-/

/-- JS `x || null` on an optional string (`clanId: playerData.clanId || null`
and `player.attributes?.clanId || null`): `null`/absent and the empty string
collapse to `null`. -/
def clanOrNull : Option String → Option String
  | none => none
  | some s => if s = "" then none else some s

/-- One stored player record, the value shape written by `savePlayerData`. -/
structure PlayerRecord where
  playerId : String
  playerName : String
  clanId : Option String
  savedAt : String
  updatedAt : String
  deriving DecidableEq, Repr

/-- The parsed `users.json` document: a keyed mapping from Discord user id to
player record, as an association list. -/
abbrev DB := List (String × PlayerRecord)

/-- `db[discordUserId]` : first entry with the given key. -/
def dbLookup (db : DB) (k : String) : Option PlayerRecord :=
  match db with
  | [] => none
  | (k', v) :: rest => if k' = k then some v else dbLookup rest k

/-- `db[discordUserId] = value` : replace in place if present, else append. -/
def dbInsert (db : DB) (k : String) (v : PlayerRecord) : DB :=
  match db with
  | [] => [(k, v)]
  | (k', v') :: rest =>
    if k' = k then (k, v) :: rest else (k', v') :: dbInsert rest k v

/-- `delete db[discordUserId]`. -/
def dbErase (db : DB) (k : String) : DB :=
  match db with
  | [] => []
  | (k', v') :: rest =>
    if k' = k then dbErase rest k else (k', v') :: dbErase rest k

/-- Contents of the persisted `users.json` file. -/
inductive FileContent
  | absent
  | malformed (raw : String)
  | valid (db : DB)
  deriving DecidableEq

/-- Filesystem state seen by the storage module: the document, plus
fault-injection flags for an I/O error on the next read or write. -/
structure FS where
  content : FileContent
  readFails : Bool
  writeFails : Bool
  deriving DecidableEq

/-- `readDB()` — returns the parsed document; an absent file, an unreadable
file, or unparsable content all degrade to the empty store (the `catch`
logs and falls through to `return {}`). -/
def readDB (fs : FS) : DB :=
  if fs.readFails then []
  else
    match fs.content with
    | .absent => []
    | .malformed _ => []
    | .valid db => db

/-- The raw `fs.writeFileSync` call inside `writeDB`: replaces the document
with the serialization of `data`, or raises. -/
def fsWrite (fs : FS) (data : DB) : Except String FS :=
  if fs.writeFails then .error "write error"
  else .ok { fs with content := .valid data }

/-- `writeDB(data)` — attempts the write; an I/O failure is caught,
logged with `console.error`, and swallowed, so the call always returns
normally (on failure the document is left unchanged). -/
def writeDB (fs : FS) (data : DB) : Except String FS :=
  match fsWrite fs data with
  | .ok fs' => .ok fs'
  | .error _ => .ok fs

/-- The payload passed to `savePlayerData`: `{ playerId, playerName, clanId? }`. -/
structure PlayerData where
  playerId : String
  playerName : String
  clanId : Option String
  deriving DecidableEq, Repr

/-- `db[discordUserId]?.savedAt || now` — keep the existing record's
`savedAt` when present and truthy (non-empty), else the current time. -/
def savedAtFor (old : Option PlayerRecord) (now : String) : String :=
  match old with
  | some r => if r.savedAt = "" then now else r.savedAt
  | none => now

/-- The record literal assigned to `db[discordUserId]` inside
`savePlayerData`: payload fields, `clanId` through `|| null`, `savedAt`
keeping any existing truthy value, `updatedAt` refreshed. -/
def saveRecord (db : DB) (discordUserId : String) (playerData : PlayerData)
    (now : String) : PlayerRecord :=
  { playerId := playerData.playerId
    playerName := playerData.playerName
    clanId := clanOrNull playerData.clanId
    savedAt := savedAtFor (dbLookup db discordUserId) now
    updatedAt := now }

/-- `savePlayerData(discordUserId, playerData)` — read-modify-write upsert. -/
def savePlayerData (fs : FS) (discordUserId : String) (playerData : PlayerData)
    (now : String) : Except String FS :=
  let db := readDB fs
  writeDB fs (dbInsert db discordUserId (saveRecord db discordUserId playerData now))

/-- `getPlayerData(discordUserId)` — `db[discordUserId] || null`. -/
def getPlayerData (fs : FS) (discordUserId : String) : Option PlayerRecord :=
  dbLookup (readDB fs) discordUserId

/-- `deletePlayerData(discordUserId)` — removes and rewrites when present,
returns whether a record existed. -/
def deletePlayerData (fs : FS) (discordUserId : String) :
    Except String (FS × Bool) :=
  let db := readDB fs
  match dbLookup db discordUserId with
  | some _ =>
    match writeDB fs (dbErase db discordUserId) with
    | .ok fs' => .ok (fs', true)
    | .error e => .error e
  | none => .ok (fs, false)

/-- `getAllPlayerData()` — the full mapping. -/
def getAllPlayerData (fs : FS) : DB :=
  readDB fs

/-- Truthiness of a stored `clanId` (`db[userId].clanId`): a non-empty
string. -/
def clanTruthy : Option String → Bool
  | some s => s ≠ ""
  | none => false

/-- Result shape of `getStats()`. -/
structure Stats where
  totalUsers : Nat
  usersWithClans : Nat
  usersWithoutClans : Nat
  deriving DecidableEq, Repr

/-- `getStats()` — total records, records with a truthy `clanId`, and the
rest. -/
def getStats (fs : FS) : Stats :=
  let db := readDB fs
  let usersWithClans := (db.filter (fun p => clanTruthy p.2.clanId)).length
  { totalUsers := db.length
    usersWithClans := usersWithClans
    usersWithoutClans := db.length - usersWithClans }

/-! ## PUBG API client (pubg-api.js) -/

/-- The typed error result produced by `_handleError` and the not-found
shortcut: `{ error, statusCode }`. -/
structure ApiError where
  error : String
  statusCode : Nat
  deriving DecidableEq, Repr

/-- Shape of a rejected axios promise as inspected by `_handleError`:
`error.response` present (HTTP status received), `error.request` present
(no response / timeout), or a request-setup failure. -/
inductive AxiosError
  | response (status : Nat) (statusText : String)
  | request
  | setup (msg : String)
  deriving DecidableEq, Repr

/-- `_handleError(error)` — classify a failed HTTP call. -/
def handleError : AxiosError → ApiError
  | .response status statusText =>
    if status = 404 then { error := "Player not found", statusCode := 404 }
    else if status = 401 then { error := "Invalid API key", statusCode := 401 }
    else if status = 429 then { error := "Rate limit exceeded", statusCode := 429 }
    else if status = 415 then { error := "Unsupported media type", statusCode := 415 }
    else { error := "API error: " ++ statusText, statusCode := status }
  | .request => { error := "No response from server", statusCode := 503 }
  | .setup _ => { error := "Failed to make request", statusCode := 500 }

/-- Outcome of one outbound HTTP request: the parsed success payload, or a
rejection. -/
inductive Fetch (α : Type)
  | ok (a : α)
  | fail (e : AxiosError)
  deriving DecidableEq

/-- One entry of `response.data.data` for a player search. -/
structure SearchPlayer where
  id : String
  name : String
  shardId : String
  patchVersion : String
  clanId : Option String
  deriving DecidableEq, Repr

/-- Success result of `searchPlayerByName`. -/
structure PlayerIdentity where
  id : String
  name : String
  shard : String
  patchVersion : String
  clanId : Option String
  deriving DecidableEq, Repr

/-- `searchPlayerByName(playerName)` — the upstream response carries
`response.data.data` (possibly absent); an absent or empty result list is
returned as the 404 "Player not found" error object, otherwise the first
entry is projected. -/
def searchPlayerByName (resp : Fetch (Option (List SearchPlayer))) :
    Except ApiError PlayerIdentity :=
  match resp with
  | .fail e => .error (handleError e)
  | .ok none => .error { error := "Player not found", statusCode := 404 }
  | .ok (some []) => .error { error := "Player not found", statusCode := 404 }
  | .ok (some (player :: _)) =>
    .ok { id := player.id
          name := player.name
          shard := player.shardId
          patchVersion := player.patchVersion
          clanId := clanOrNull player.clanId }

/-- One entry of `player.relationships.matches.data`. -/
structure MatchRef where
  id : String
  deriving DecidableEq, Repr

/-- `player.relationships.matches`, whose `data` list may be absent. -/
structure MatchesRel where
  data : Option (List MatchRef)
  deriving DecidableEq, Repr

/-- `player.relationships`, whose `matches` field may be absent
(`matches` is a Lean keyword, hence the field name). -/
structure Relationships where
  matchesRel : Option MatchesRel
  deriving DecidableEq, Repr

/-- `response.data.data` for a player-by-id fetch; `relationships` may be
absent. -/
structure PlayerRaw where
  id : String
  name : String
  shardId : String
  patchVersion : String
  relationships : Option Relationships
  deriving DecidableEq, Repr

/-- Success result of `getPlayerById`. -/
structure PlayerProfile where
  id : String
  name : String
  shard : String
  patchVersion : String
  matchIds : List String
  deriving DecidableEq, Repr

/-- `player.relationships?.matches?.data?.map(m => m.id) || []`. -/
def extractMatchIds (rels : Option Relationships) : List String :=
  match rels with
  | none => []
  | some rel =>
    match rel.matchesRel with
    | none => []
    | some m =>
      match m.data with
      | none => []
      | some refs => refs.map (·.id)

/-- `getPlayerById(playerId)` — projects the profile and the match-id list
from the raw response, or classifies the failure. -/
def getPlayerById (resp : Fetch PlayerRaw) : Except ApiError PlayerProfile :=
  match resp with
  | .fail e => .error (handleError e)
  | .ok player =>
    .ok { id := player.id
          name := player.name
          shard := player.shardId
          patchVersion := player.patchVersion
          matchIds := extractMatchIds player.relationships }

/-- The numeric stat block `participant.attributes.stats`. -/
structure ParticipantStats where
  playerId : String
  damageDealt : Int
  revives : Int
  kills : Int
  heals : Int
  assists : Int
  timeSurvived : Int
  walkDistance : Int
  rideDistance : Int
  deriving DecidableEq, Repr

/-- The JS value of `roster.attributes.won` as found in the wild: a string,
a boolean, or absent. -/
inductive JsVal
  | str (s : String)
  | bool (b : Bool)
  | undef
  deriving DecidableEq, Repr

/-- JS strict equality `v === "true"`. -/
def isStrTrue : JsVal → Bool
  | .str s => s = "true"
  | _ => false

/-- A roster entry of `response.data.included`:
`relationships.participants.data` ids, `attributes.stats.rank` (possibly
absent), and `attributes.won`. -/
structure Roster where
  participantIds : List String
  rank : Option Int
  won : JsVal
  deriving DecidableEq, Repr

/-- One entry of a match's `included` collection. -/
inductive Included
  | participant (id : String) (stats : ParticipantStats)
  | roster (r : Roster)
  | other
  deriving DecidableEq, Repr

/-- `response.data` for a match fetch: `data` attributes plus the optional
`included` collection. -/
structure MatchRaw where
  id : String
  gameMode : String
  mapName : String
  duration : Int
  createdAt : String
  included : Option (List Included)
  deriving DecidableEq, Repr

/-- Success result of `getMatchDetails`. -/
structure MatchDetails where
  matchId : String
  gameMode : String
  mapName : String
  duration : Int
  createdAt : String
  included : List Included
  deriving DecidableEq, Repr

/-- `getMatchDetails(matchId)` — projects the match attributes and
`response.data.included || []`, or classifies the failure. -/
def getMatchDetails (resp : Fetch MatchRaw) : Except ApiError MatchDetails :=
  match resp with
  | .fail e => .error (handleError e)
  | .ok m =>
    .ok { matchId := m.id
          gameMode := m.gameMode
          mapName := m.mapName
          duration := m.duration
          createdAt := m.createdAt
          included := m.included.getD [] }

/-- `match.included.find(item => item.type === "participant" &&
item.attributes.stats.playerId === playerId)` — first matching participant,
as its id and stat block. -/
def findParticipant (playerId : String) : List Included →
    Option (String × ParticipantStats)
  | [] => none
  | .participant pid stats :: rest =>
    if stats.playerId = playerId then some (pid, stats)
    else findParticipant playerId rest
  | _ :: rest => findParticipant playerId rest

/-- `match.included.find(item => item.type === "roster" &&
item.relationships.participants.data.some(p => p.id === participant.id))`. -/
def findRoster (participantId : String) : List Included → Option Roster
  | [] => none
  | .roster r :: rest =>
    if r.participantIds.contains participantId then some r
    else findRoster participantId rest
  | _ :: rest => findRoster participantId rest

/-- The per-match stat record emitted by `getRecentMatchesStats`. -/
structure MatchStat where
  matchId : String
  gameMode : String
  mapName : String
  createdAt : String
  damageDealt : Int
  revives : Int
  kills : Int
  heals : Int
  assists : Int
  timeSurvived : Int
  walkDistance : Int
  rideDistance : Int
  teamRank : Option Int
  teamWon : Bool
  deriving DecidableEq, Repr

/-- `roster?.attributes?.stats?.rank || null` — an absent roster, absent
rank, or falsy rank 0 becomes `null`. -/
def teamRankOf (roster : Option Roster) : Option Int :=
  match roster with
  | some r =>
    match r.rank with
    | some rk => if rk = 0 then none else some rk
    | none => none
  | none => none

/-- `roster?.attributes?.won === "true"`. -/
def teamWonOf (roster : Option Roster) : Bool :=
  match roster with
  | some r => isStrTrue r.won
  | none => false

/-- The body of the `matches.map(...)` callback in `getRecentMatchesStats`:
a failed fetch maps to `null`; a match with no participant whose stat
block names the target player maps to `null`; otherwise one `MatchStat`
is built by joining the participant with its containing roster. -/
def processMatch (playerId : String) (m : Except ApiError MatchDetails) :
    Option MatchStat :=
  match m with
  | .error _ => none
  | .ok md =>
    match findParticipant playerId md.included with
    | none => none
    | some (participantId, stats) =>
      let roster := findRoster participantId md.included
      some { matchId := md.matchId
             gameMode := md.gameMode
             mapName := md.mapName
             createdAt := md.createdAt
             damageDealt := stats.damageDealt
             revives := stats.revives
             kills := stats.kills
             heals := stats.heals
             assists := stats.assists
             timeSurvived := stats.timeSurvived
             walkDistance := stats.walkDistance
             rideDistance := stats.rideDistance
             teamRank := teamRankOf roster
             teamWon := teamWonOf roster }

/-- The upstream responses visible to one `getRecentMatchesStats` call:
the player-by-id response and, per match id, the match response. -/
structure World where
  playerResp : Fetch PlayerRaw
  matchResp : String → Fetch MatchRaw

/-- `getRecentMatchesStats(playerId, shard, limit)` — resolve the profile
(propagating its error), take the first `limit` match ids, fetch each
match (`Promise.all` joins results by position, i.e. in id order), then
map each to a `MatchStat` or `null` and drop the `null`s. -/
def getRecentMatchesStats (w : World) (playerId : String) (limit : Nat) :
    Except ApiError (List MatchStat) :=
  match getPlayerById w.playerResp with
  | .error e => .error e
  | .ok playerData =>
    let matchIds := playerData.matchIds.take limit
    let matchResults := matchIds.map (fun mid => getMatchDetails (w.matchResp mid))
    .ok (matchResults.filterMap (processMatch playerId))

/-! ## Helper lemmas about the storage embedding -/

theorem dbLookup_insert (db : DB) (k : String) (v : PlayerRecord) :
    dbLookup (dbInsert db k v) k = some v := by
  induction db with
  | nil => simp [dbInsert, dbLookup]
  | cons hd tl ih =>
    obtain ⟨k', v'⟩ := hd
    by_cases h : k' = k
    · simp [dbInsert, dbLookup, h]
    · simp [dbInsert, dbLookup, h, ih]

theorem savePlayerData_ok (fs : FS) (discordUserId : String)
    (playerData : PlayerData) (now : String) (hw : fs.writeFails = false) :
    savePlayerData fs discordUserId playerData now =
      .ok { fs with content := .valid (dbInsert (readDB fs) discordUserId
              (saveRecord (readDB fs) discordUserId playerData now)) } := by
  simp [savePlayerData, writeDB, fsWrite, hw]

theorem readDB_valid (db : DB) (w : Bool) :
    readDB { content := .valid db, readFails := false, writeFails := w } = db := by
  simp [readDB]

theorem saveRecord_savedAt_ne_empty (db : DB) (discordUserId : String)
    (playerData : PlayerData) (now : String) (hnow : now ≠ "") :
    (saveRecord db discordUserId playerData now).savedAt ≠ "" := by
  simp only [saveRecord, savedAtFor]
  cases h : dbLookup db discordUserId with
  | none => exact hnow
  | some r =>
    by_cases hr : r.savedAt = ""
    · simpa [hr] using hnow
    · simp [hr]

/-! ## Claims about the Player Record Store -/

/-- Concrete filesystem whose next write raises an I/O error. -/
def fsWriteFailing : FS :=
  { content := .valid [], readFails := false, writeFails := true }

/-- A concrete save payload. -/
def pdAlice : PlayerData :=
  { playerId := "p1", playerName := "Alice", clanId := none }

/-- C1, as stated, is false: on `fsWriteFailing` the underlying write
raises (`fsWrite` returns the storage error), yet `savePlayerData` returns
success — the error is caught and logged inside `writeDB`, not propagated. -/
theorem C1_counterexample :
    fsWrite fsWriteFailing
        (dbInsert (readDB fsWriteFailing) "u1"
          (saveRecord (readDB fsWriteFailing) "u1" pdAlice "2024-01-01")) =
      Except.error "write error" ∧
    savePlayerData fsWriteFailing "u1" pdAlice "2024-01-01" =
      Except.ok fsWriteFailing := by
  constructor
  · rfl
  · rfl

/-- C1 (amended): `savePlayerData` never fails; when the underlying write
raises, the error is caught and logged and the call still returns success,
leaving the persisted document unchanged; when the write succeeds the
document is replaced by the updated mapping. -/
theorem C1_save_never_fails (fs : FS) (discordUserId : String)
    (playerData : PlayerData) (now : String) :
    ∃ fs', savePlayerData fs discordUserId playerData now = .ok fs' ∧
      (fs.writeFails = true → fs' = fs) ∧
      (fs.writeFails = false →
        fs'.content = .valid (dbInsert (readDB fs) discordUserId
          (saveRecord (readDB fs) discordUserId playerData now))) := by
  by_cases hw : fs.writeFails = true
  · refine ⟨fs, ?_, fun _ => rfl, fun h => absurd hw (by simp [h])⟩
    simp [savePlayerData, writeDB, fsWrite, hw]
  · have hw' : fs.writeFails = false := by simpa using hw
    exact ⟨_, savePlayerData_ok fs discordUserId playerData now hw',
      fun h => absurd h (by simp [hw']), fun _ => rfl⟩

/-- Witness for C1: at the concrete failing filesystem, save succeeds and
leaves the state unchanged. -/
theorem C1_witness :
    ∃ fs', savePlayerData fsWriteFailing "u1" pdAlice "2024-01-01" = .ok fs' ∧
      fs' = fsWriteFailing := by
  obtain ⟨fs', h1, h2, _⟩ := C1_save_never_fails fsWriteFailing "u1" pdAlice "2024-01-01"
  exact ⟨fs', h1, h2 rfl⟩

/-- C2: two consecutive saves under the same user id (with working storage
and a well-formed first timestamp): the second save preserves the first's
`savedAt` (which is the first call's time when the key was fresh), each
call stamps `updatedAt` with its own time so `updatedAt` is non-decreasing,
and the second call's payload fully replaces the first's fields. -/
theorem C2_upsert_semantics (fs : FS) (discordUserId : String)
    (pd1 pd2 : PlayerData) (t1 t2 : String)
    (hr : fs.readFails = false) (hw : fs.writeFails = false)
    (ht1 : t1 ≠ "") (hle : t1 ≤ t2) :
    ∃ fs1 fs2 r1 r2,
      savePlayerData fs discordUserId pd1 t1 = .ok fs1 ∧
      savePlayerData fs1 discordUserId pd2 t2 = .ok fs2 ∧
      getPlayerData fs1 discordUserId = some r1 ∧
      getPlayerData fs2 discordUserId = some r2 ∧
      r2.savedAt = r1.savedAt ∧
      (dbLookup (readDB fs) discordUserId = none → r1.savedAt = t1) ∧
      r1.updatedAt = t1 ∧ r2.updatedAt = t2 ∧
      r1.updatedAt ≤ r2.updatedAt ∧
      r2.playerId = pd2.playerId ∧ r2.playerName = pd2.playerName ∧
      r2.clanId = clanOrNull pd2.clanId := by
  obtain ⟨c, rf, wf⟩ := fs
  simp only at hr hw
  subst hr hw
  set db := readDB { content := c, readFails := false, writeFails := false } with hdb
  set r1 := saveRecord db discordUserId pd1 t1 with hr1
  set db1 := dbInsert db discordUserId r1 with hdb1
  set fs1 : FS := { content := .valid db1, readFails := false, writeFails := false } with hfs1
  have hsave1 : savePlayerData { content := c, readFails := false, writeFails := false }
      discordUserId pd1 t1 = .ok fs1 :=
    savePlayerData_ok _ _ _ _ rfl
  have hread1 : readDB fs1 = db1 := readDB_valid db1 false
  set r2 := saveRecord db1 discordUserId pd2 t2 with hr2
  set db2 := dbInsert db1 discordUserId r2 with hdb2
  set fs2 : FS := { content := .valid db2, readFails := false, writeFails := false } with hfs2
  have hsave2 : savePlayerData fs1 discordUserId pd2 t2 = .ok fs2 := by
    have := savePlayerData_ok fs1 discordUserId pd2 t2 rfl
    rwa [hread1] at this
  have hget1 : getPlayerData fs1 discordUserId = some r1 := by
    simp [getPlayerData, hread1, hdb1, dbLookup_insert]
  have hread2 : readDB fs2 = db2 := by
    rw [hfs2]; exact readDB_valid db2 false
  have hget2 : getPlayerData fs2 discordUserId = some r2 := by
    simp [getPlayerData, hread2, hdb2, dbLookup_insert]
  have hsavedAt1 : r1.savedAt ≠ "" :=
    saveRecord_savedAt_ne_empty db discordUserId pd1 t1 ht1
  have hsaved : r2.savedAt = r1.savedAt := by
    rw [hr2]
    simp only [saveRecord, savedAtFor, hdb1, dbLookup_insert]
    simp [hsavedAt1]
  refine ⟨fs1, fs2, r1, r2, hsave1, hsave2, hget1, hget2, hsaved, ?_, rfl, rfl, ?_, rfl, rfl, rfl⟩
  · intro hnone
    rw [hr1]
    simp [saveRecord, savedAtFor, hnone]
  · exact hle

/-- Witness for C2 at a concrete empty store and concrete payloads. -/
theorem C2_witness :
    ∃ fs1 fs2 r1 r2,
      savePlayerData { content := .absent, readFails := false, writeFails := false }
        "u1" pdAlice "2024-01-01" = .ok fs1 ∧
      savePlayerData fs1 "u1" { playerId := "p2", playerName := "Alice2", clanId := some "c9" }
        "2024-01-02" = .ok fs2 ∧
      getPlayerData fs1 "u1" = some r1 ∧
      getPlayerData fs2 "u1" = some r2 ∧
      r2.savedAt = r1.savedAt ∧
      r1.updatedAt = "2024-01-01" ∧ r2.updatedAt = "2024-01-02" ∧
      r2.playerName = "Alice2" ∧ r2.clanId = some "c9" := by
  obtain ⟨fs1, fs2, r1, r2, h1, h2, h3, h4, h5, h6, h7, h8, h9, h10, h11, h12⟩ :=
    C2_upsert_semantics { content := .absent, readFails := false, writeFails := false }
      "u1" pdAlice { playerId := "p2", playerName := "Alice2", clanId := some "c9" }
      "2024-01-01" "2024-01-02" rfl rfl (by decide)
      (by simp only [String.le_iff_toList_le]; decide)
  exact ⟨fs1, fs2, r1, r2, h1, h2, h3, h4, h5, h7, h8, by rw [h11], by rw [h12]; rfl⟩

/-- A payload whose optional clan id is present but the empty string. -/
def pdEmptyClan : PlayerData :=
  { playerId := "p1", playerName := "Alice", clanId := some "" }

/-- An empty, fully working filesystem. -/
def fsEmpty : FS :=
  { content := .absent, readFails := false, writeFails := false }

/-- The record `savePlayerData` writes for `pdEmptyClan`: its clan id is
normalized to `null`. -/
def recEmptyClan : PlayerRecord :=
  { playerId := "p1", playerName := "Alice", clanId := none,
    savedAt := "2024-01-01", updatedAt := "2024-01-01" }

/-- The filesystem after saving `pdEmptyClan` into the empty store. -/
def fsAfterEmptyClan : FS :=
  { content := .valid [("u1", recEmptyClan)], readFails := false, writeFails := false }

/-- C5, as stated, is false on one payload: saving a payload whose `clanId`
is the empty string stores `null` (`clanId || null`), so `getPlayerData`
immediately after returns a record whose `clanId` differs from the saved
payload's. -/
theorem C5_counterexample :
    savePlayerData fsEmpty "u1" pdEmptyClan "2024-01-01" = .ok fsAfterEmptyClan ∧
    getPlayerData fsAfterEmptyClan "u1" = some recEmptyClan ∧
    recEmptyClan.playerId = pdEmptyClan.playerId ∧
    recEmptyClan.playerName = pdEmptyClan.playerName ∧
    recEmptyClan.clanId ≠ pdEmptyClan.clanId := by
  refine ⟨rfl, rfl, rfl, rfl, by decide⟩

/-- C5 (amended): with working storage, `getPlayerData` immediately after
`savePlayerData` returns a record whose `playerId` and `playerName` equal
the saved payload's, and whose `clanId` equals the payload's passed
through the store's `clanId || null` normalization — in particular it
equals the payload's `clanId` whenever that is not the empty string. -/
theorem C5_round_trip (fs : FS) (discordUserId : String) (pd : PlayerData)
    (now : String) (hr : fs.readFails = false) (hw : fs.writeFails = false) :
    ∃ fs' r, savePlayerData fs discordUserId pd now = .ok fs' ∧
      getPlayerData fs' discordUserId = some r ∧
      r.playerId = pd.playerId ∧ r.playerName = pd.playerName ∧
      r.clanId = clanOrNull pd.clanId ∧
      (pd.clanId ≠ some "" → r.clanId = pd.clanId) := by
  refine ⟨_, saveRecord (readDB fs) discordUserId pd now,
    savePlayerData_ok fs discordUserId pd now hw, ?_, rfl, rfl, rfl, ?_⟩
  · simp [getPlayerData, readDB, hr, dbLookup_insert]
  · intro hne
    cases hc : pd.clanId with
    | none => simp [saveRecord, clanOrNull, hc]
    | some s =>
      have hs : s ≠ "" := by
        intro h
        exact hne (by rw [hc, h])
      simp [saveRecord, clanOrNull, hc, hs]

/-- Witness for C5 at a concrete store and payload with a non-empty clan. -/
theorem C5_witness :
    ∃ fs' r,
      savePlayerData fsEmpty "u1"
        { playerId := "p1", playerName := "Alice", clanId := some "c9" }
        "2024-01-01" = .ok fs' ∧
      getPlayerData fs' "u1" = some r ∧
      r.playerId = "p1" ∧ r.playerName = "Alice" ∧ r.clanId = some "c9" := by
  obtain ⟨fs', r, h1, h2, h3, h4, _, h6⟩ :=
    C5_round_trip fsEmpty "u1"
      { playerId := "p1", playerName := "Alice", clanId := some "c9" }
      "2024-01-01" rfl rfl
  exact ⟨fs', r, h1, h2, h3, h4, h6 (by decide)⟩

/-- C6: in every store state, `getStats` returns counts with
`totalUsers = usersWithClans + usersWithoutClans`, both sides equal to the
number of entries of `getAllPlayerData`; and on stores whose clan ids are
never the empty string (as written by `savePlayerData`), `usersWithClans`
is exactly the number of records with a non-null `clanId`. -/
theorem C6_stats_consistency (fs : FS) :
    ((getStats fs).totalUsers =
        (getStats fs).usersWithClans + (getStats fs).usersWithoutClans ∧
      (getStats fs).totalUsers = (getAllPlayerData fs).length) ∧
    ((∀ p ∈ getAllPlayerData fs, p.2.clanId ≠ some "") →
      (getStats fs).usersWithClans =
        ((getAllPlayerData fs).filter (fun p => p.2.clanId.isSome)).length) := by
  have hle : ((readDB fs).filter (fun p => clanTruthy p.2.clanId)).length ≤
      (readDB fs).length := List.length_filter_le _ _
  refine ⟨⟨?_, rfl⟩, ?_⟩
  · simp only [getStats]
    omega
  · intro h
    simp only [getStats, getAllPlayerData]
    congr 1
    apply List.filter_congr
    intro p hp
    cases hc : p.2.clanId with
    | none => simp [clanTruthy, hc]
    | some s =>
      have : s ≠ "" := by
        intro hs
        exact (h p hp) (by rw [hc, hs])
      simp [clanTruthy, hc, this]

/-- A concrete two-record store: one record with a clan, one without. -/
def fsTwo : FS :=
  { content := .valid
      [("u1", { playerId := "p1", playerName := "Alice", clanId := some "c9",
                savedAt := "2024-01-01", updatedAt := "2024-01-01" }),
       ("u2", { playerId := "p2", playerName := "Bob", clanId := none,
                savedAt := "2024-01-01", updatedAt := "2024-01-01" })],
    readFails := false, writeFails := false }

/-- Witness for C6 at a concrete two-record store. -/
theorem C6_witness :
    ((getStats fsTwo).totalUsers =
        (getStats fsTwo).usersWithClans + (getStats fsTwo).usersWithoutClans ∧
      (getStats fsTwo).totalUsers = (getAllPlayerData fsTwo).length) ∧
    (getStats fsTwo).usersWithClans =
      ((getAllPlayerData fsTwo).filter (fun p => p.2.clanId.isSome)).length := by
  obtain ⟨h1, h2⟩ := C6_stats_consistency fsTwo
  exact ⟨h1, h2 (by decide)⟩

theorem readDB_malformed (fs : FS) (raw : String)
    (hc : fs.content = .malformed raw) : readDB fs = [] := by
  simp [readDB, hc]

/-- C7: when the persisted document is unparsable, every read path
(`getPlayerData`, `getAllPlayerData`, `getStats`, and the lookup inside
`deletePlayerData`) behaves as if the store were empty and succeeds, and a
subsequent `savePlayerData` (with working storage) overwrites the document
with a well-formed serialization of the full mapping. -/
theorem C7_malformed_degrades (fs : FS) (raw discordUserId : String)
    (pd : PlayerData) (now : String) (hc : fs.content = .malformed raw) :
    getPlayerData fs discordUserId = none ∧
    getAllPlayerData fs = [] ∧
    getStats fs = { totalUsers := 0, usersWithClans := 0, usersWithoutClans := 0 } ∧
    deletePlayerData fs discordUserId = .ok (fs, false) ∧
    (fs.writeFails = false →
      savePlayerData fs discordUserId pd now =
        .ok { fs with
          content := FileContent.valid [(discordUserId, saveRecord [] discordUserId pd now)] }) := by
  have hread := readDB_malformed fs raw hc
  refine ⟨?_, ?_, ?_, ?_, ?_⟩
  · simp [getPlayerData, hread, dbLookup]
  · simp [getAllPlayerData, hread]
  · simp [getStats, hread]
  · simp [deletePlayerData, hread, dbLookup]
  · intro hw
    simp [savePlayerData, hread, writeDB, fsWrite, hw, dbInsert]

/-- A concrete filesystem holding an unparsable document. -/
def fsMalformed : FS :=
  { content := .malformed "not json", readFails := false, writeFails := false }

/-- Witness for C7 at a concrete unparsable document. -/
theorem C7_witness :
    getPlayerData fsMalformed "u1" = none ∧
    getAllPlayerData fsMalformed = [] ∧
    getStats fsMalformed = { totalUsers := 0, usersWithClans := 0, usersWithoutClans := 0 } ∧
    deletePlayerData fsMalformed "u1" = .ok (fsMalformed, false) ∧
    savePlayerData fsMalformed "u1" pdAlice "2024-01-01" =
      .ok { fsMalformed with
        content := FileContent.valid [("u1", saveRecord [] "u1" pdAlice "2024-01-01")] } := by
  obtain ⟨h1, h2, h3, h4, h5⟩ :=
    C7_malformed_degrades fsMalformed "not json" "u1" pdAlice "2024-01-01" rfl
  exact ⟨h1, h2, h3, h4, h5 rfl⟩

/-! ## Helper lemmas about the aggregator -/

theorem processMatch_some (playerId : String) (m : Except ApiError MatchDetails)
    (s : MatchStat) (h : processMatch playerId m = some s) :
    ∃ md, m = .ok md ∧ (findParticipant playerId md.included).isSome ∧
      s.matchId = md.matchId := by
  cases m with
  | error e => simp [processMatch] at h
  | ok md =>
    refine ⟨md, rfl, ?_, ?_⟩
    · cases hf : findParticipant playerId md.included with
      | none => simp [processMatch, hf] at h
      | some pr => simp
    · cases hf : findParticipant playerId md.included with
      | none => simp [processMatch, hf] at h
      | some pr =>
        obtain ⟨participantId, pstats⟩ := pr
        simp only [processMatch, hf] at h
        obtain rfl := Option.some_inj.mp h
        rfl

theorem processMatch_of_participant (playerId : String) (md : MatchDetails)
    (h : (findParticipant playerId md.included).isSome) :
    ∃ stat, processMatch playerId (.ok md) = some stat ∧
      stat.matchId = md.matchId := by
  cases hf : findParticipant playerId md.included with
  | none => rw [hf] at h; simp at h
  | some pr =>
    obtain ⟨participantId, pstats⟩ := pr
    have hp : processMatch playerId (.ok md) = some
        { matchId := md.matchId, gameMode := md.gameMode, mapName := md.mapName,
          createdAt := md.createdAt, damageDealt := pstats.damageDealt,
          revives := pstats.revives, kills := pstats.kills, heals := pstats.heals,
          assists := pstats.assists, timeSurvived := pstats.timeSurvived,
          walkDistance := pstats.walkDistance, rideDistance := pstats.rideDistance,
          teamRank := teamRankOf (findRoster participantId md.included),
          teamWon := teamWonOf (findRoster participantId md.included) } := by
      simp [processMatch, hf]
    exact ⟨_, hp, rfl⟩

theorem length_filterMap_processMatch (playerId : String)
    (f : String → Except ApiError MatchDetails) (l : List String) :
    ((l.map f).filterMap (processMatch playerId)).length =
      l.countP (fun mid => (processMatch playerId (f mid)).isSome) := by
  induction l with
  | nil => rfl
  | cons a l ih =>
    rw [List.filterMap_map] at ih
    simp only [List.map_cons, List.filterMap_cons, List.countP_cons]
    cases h : processMatch playerId (f a) with
    | none => simp [h, ih]
    | some s => simp [h, ih]

theorem map_matchId_filterMap_processMatch (playerId : String)
    (f : String → Except ApiError MatchDetails) (l : List String)
    (hall : ∀ mid ∈ l, ∃ md, f mid = .ok md ∧ md.matchId = mid ∧
      (findParticipant playerId md.included).isSome) :
    ((l.map f).filterMap (processMatch playerId)).map (·.matchId) = l := by
  induction l with
  | nil => rfl
  | cons a l ih =>
    obtain ⟨md, hmd, hid, hpart⟩ := hall a (List.mem_cons_self a l)
    obtain ⟨stat, hstat, hstatid⟩ := processMatch_of_participant playerId md hpart
    simp only [List.map_cons, List.filterMap_cons, hmd, hstat]
    simp only [List.map_cons, hstatid, hid]
    rw [ih (fun mid hm => hall mid (List.mem_cons_of_mem a hm))]

/-! ## Claims about the PUBG API client and aggregator -/

/-- C3: whenever the player profile resolves, `getRecentMatchesStats`
returns success; its result has exactly one entry per requested match id
whose fetch succeeded and whose participant collection contains an entry
for the target player — so a match with no matching participant, and a
failed fetch, are each silently excluded without failing the batch. -/
theorem C3_partial_batch (w : World) (playerId : String) (limit : Nat)
    (profile : PlayerProfile) (h : getPlayerById w.playerResp = .ok profile) :
    ∃ stats, getRecentMatchesStats w playerId limit = .ok stats ∧
      stats.length = (profile.matchIds.take limit).countP
        (fun mid => (processMatch playerId (getMatchDetails (w.matchResp mid))).isSome) ∧
      ∀ s ∈ stats, ∃ mid ∈ profile.matchIds.take limit, ∃ md,
        getMatchDetails (w.matchResp mid) = .ok md ∧
        (findParticipant playerId md.included).isSome ∧
        s.matchId = md.matchId := by
  have hres : getRecentMatchesStats w playerId limit =
      .ok (((profile.matchIds.take limit).map
        (fun mid => getMatchDetails (w.matchResp mid))).filterMap
          (processMatch playerId)) := by
    simp only [getRecentMatchesStats, h]
  refine ⟨_, hres, ?_, ?_⟩
  · exact length_filterMap_processMatch playerId _ _
  · intro s hs
    obtain ⟨x, hx, hps⟩ := List.mem_filterMap.mp hs
    obtain ⟨mid, hmid, rfl⟩ := List.mem_map.mp hx
    obtain ⟨md, hmd, hpart, hid⟩ := processMatch_some playerId _ s hps
    exact ⟨mid, hmid, md, hmd, hpart, hid⟩

/-- C4: `getRecentMatchesStats` processes exactly the first `limit` match
identifiers of the profile, in profile order and with no re-sorting; when
every one of them resolves to a match document carrying that identifier and
containing a participant for the target player, the emitted `MatchStat`
sequence carries exactly those identifiers in the same order (the
`Promise.all` join is by position, so completion order cannot reorder it). -/
theorem C4_order_preserved (w : World) (playerId : String) (limit : Nat)
    (profile : PlayerProfile) (h : getPlayerById w.playerResp = .ok profile)
    (hall : ∀ mid ∈ profile.matchIds.take limit, ∃ md,
      getMatchDetails (w.matchResp mid) = .ok md ∧ md.matchId = mid ∧
      (findParticipant playerId md.included).isSome) :
    ∃ stats, getRecentMatchesStats w playerId limit = .ok stats ∧
      stats.map (·.matchId) = profile.matchIds.take limit := by
  have hres : getRecentMatchesStats w playerId limit =
      .ok (((profile.matchIds.take limit).map
        (fun mid => getMatchDetails (w.matchResp mid))).filterMap
          (processMatch playerId)) := by
    simp only [getRecentMatchesStats, h]
  exact ⟨_, hres, map_matchId_filterMap_processMatch playerId _ _ hall⟩

/-- Participant stat block for a given player id, used in concrete worlds. -/
def mkStats (playerId : String) : ParticipantStats :=
  { playerId := playerId, damageDealt := 100, revives := 1, kills := 2,
    heals := 3, assists := 4, timeSurvived := 500, walkDistance := 600,
    rideDistance := 700 }

/-- A raw match document with the given document id and included items. -/
def mkMatchRaw (mid : String) (included : List Included) : MatchRaw :=
  { id := mid, gameMode := "squad", mapName := "Erangel", duration := 1800,
    createdAt := "2024-01-01", included := some included }

/-- A raw player document whose match list is [A, B, C]. -/
def rawABC : PlayerRaw :=
  { id := "p1", name := "Alice", shardId := "steam", patchVersion := "1.0",
    relationships := some { matchesRel := some { data := some [⟨"A"⟩, ⟨"B"⟩, ⟨"C"⟩] } } }

/-- The profile produced for `rawABC`. -/
def profileABC : PlayerProfile :=
  { id := "p1", name := "Alice", shard := "steam", patchVersion := "1.0",
    matchIds := ["A", "B", "C"] }

/-- Match A: the target player is present, the roster won. -/
def matchRawA : MatchRaw :=
  mkMatchRaw "A" [.participant "partA" (mkStats "p1"),
    .roster { participantIds := ["partA"], rank := some 1, won := .str "true" }]

/-- Match B (malformed for the target player): fetched fine but its
participant collection has no entry for player p1. -/
def matchRawB : MatchRaw :=
  mkMatchRaw "B" [.participant "partB" (mkStats "someoneElse"),
    .roster { participantIds := ["partB"], rank := some 5, won := .str "false" }]

/-- Match B with the target player present (for the all-resolvable world). -/
def matchRawB' : MatchRaw :=
  mkMatchRaw "B" [.participant "partB" (mkStats "p1"),
    .roster { participantIds := ["partB"], rank := some 5, won := .str "false" }]

/-- Match C: the target player is present, rank 3, roster lost. -/
def matchRawC : MatchRaw :=
  mkMatchRaw "C" [.participant "partC" (mkStats "p1"),
    .roster { participantIds := ["partC"], rank := some 3, won := .undef }]

/-- World for the partial-batch scenario: three match ids, the second one
yields a match with no participant for the target player. -/
def worldPartial : World :=
  { playerResp := .ok rawABC
    matchResp := fun mid =>
      if mid = "A" then .ok matchRawA
      else if mid = "B" then .ok matchRawB
      else if mid = "C" then .ok matchRawC
      else .fail .request }

/-- World where all three match ids resolve and contain the target player. -/
def worldAll : World :=
  { playerResp := .ok rawABC
    matchResp := fun mid =>
      if mid = "A" then .ok matchRawA
      else if mid = "B" then .ok matchRawB'
      else if mid = "C" then .ok matchRawC
      else .fail .request }

/-- Witness for C3: three ids requested, the middle match has no entry for
the target player; the call succeeds with a two-element result. -/
theorem C3_witness :
    ∃ stats, getRecentMatchesStats worldPartial "p1" 3 = .ok stats ∧
      stats.length = 2 := by
  obtain ⟨stats, h1, h2, _⟩ := C3_partial_batch worldPartial "p1" 3 profileABC rfl
  refine ⟨stats, h1, ?_⟩
  rw [h2]
  decide

/-- The `MatchDetails` projection of a successfully fetched raw match. -/
def mdOf (m : MatchRaw) : MatchDetails :=
  { matchId := m.id, gameMode := m.gameMode, mapName := m.mapName,
    duration := m.duration, createdAt := m.createdAt,
    included := m.included.getD [] }

/-- Witness for C4: with [A, B, C] all resolvable, the emitted sequence is
in order [A, B, C]. -/
theorem C4_witness :
    ∃ stats, getRecentMatchesStats worldAll "p1" 3 = .ok stats ∧
      stats.map (·.matchId) = ["A", "B", "C"] := by
  have hall : ∀ mid ∈ profileABC.matchIds.take 3, ∃ md,
      getMatchDetails (worldAll.matchResp mid) = .ok md ∧ md.matchId = mid ∧
      (findParticipant "p1" md.included).isSome := by
    intro mid hmid
    have hids : profileABC.matchIds.take 3 = ["A", "B", "C"] := rfl
    rw [hids] at hmid
    simp only [List.mem_cons, List.not_mem_nil, or_false] at hmid
    rcases hmid with rfl | rfl | rfl
    · exact ⟨mdOf matchRawA, rfl, rfl, rfl⟩
    · exact ⟨mdOf matchRawB', rfl, rfl, rfl⟩
    · exact ⟨mdOf matchRawC, rfl, rfl, rfl⟩
  exact C4_order_preserved worldAll "p1" 3 profileABC rfl hall

/-- The error object shared by the zero-result branch and the 404 branch. -/
def notFoundError : ApiError :=
  { error := "Player not found", statusCode := 404 }

/-- The classification `_handleError` gives when no response arrived. -/
def unreachableError : ApiError :=
  { error := "No response from server", statusCode := 503 }

/-- C8: a search whose upstream response succeeds with zero results (an
absent or empty `data` array) yields the same NotFound classification as an
upstream 404, which differs from the Unreachable (no-response)
classification in both status code and message. -/
theorem C8_not_found_classification :
    searchPlayerByName (.ok none) = .error notFoundError ∧
    searchPlayerByName (.ok (some [])) = .error notFoundError ∧
    (∀ statusText, handleError (.response 404 statusText) = notFoundError) ∧
    handleError .request = unreachableError ∧
    notFoundError ≠ unreachableError ∧
    notFoundError.statusCode ≠ unreachableError.statusCode := by
  refine ⟨rfl, rfl, fun statusText => rfl, rfl, by decide, by decide⟩

/-- C9: a joined match's `teamWon` is true exactly when the matched
roster's `won` attribute is the string "true" under JS strict equality —
a boolean `true`, the string "True", or an absent attribute all yield
`teamWon = false`, as does the absence of a matching roster. -/
theorem C9_teamWon_strict_equality (playerId : String) (md : MatchDetails)
    (stat : MatchStat) (participantId : String) (pstats : ParticipantStats)
    (hp : processMatch playerId (.ok md) = some stat)
    (hf : findParticipant playerId md.included = some (participantId, pstats)) :
    stat.teamWon = true ↔
      ∃ r, findRoster participantId md.included = some r ∧
        r.won = JsVal.str "true" := by
  simp only [processMatch, hf] at hp
  obtain rfl := Option.some_inj.mp hp
  cases hfr : findRoster participantId md.included with
  | none => simp [teamWonOf, hfr]
  | some r =>
    simp only [teamWonOf, hfr]
    cases hw : r.won with
    | str s => simp [isStrTrue, hw]
    | bool b => simp [isStrTrue, hw]
    | undef => simp [isStrTrue, hw]

/-- A match whose roster carries the boolean `true` rather than the string
"true" in its `won` attribute. -/
def matchRawBoolWon : MatchRaw :=
  mkMatchRaw "D" [.participant "partD" (mkStats "p1"),
    .roster { participantIds := ["partD"], rank := some 1, won := .bool true }]

/-- The stat emitted for `matchRawBoolWon`: `teamWon` is false even though
the roster won (its `won` attribute is not the string "true"). -/
def statBoolWon : MatchStat :=
  { matchId := "D", gameMode := "squad", mapName := "Erangel",
    createdAt := "2024-01-01", damageDealt := 100, revives := 1, kills := 2,
    heals := 3, assists := 4, timeSurvived := 500, walkDistance := 600,
    rideDistance := 700, teamRank := some 1, teamWon := false }

/-- Witness for C9: on a concrete match whose roster's `won` is the boolean
`true`, the emitted stat has `teamWon = false`, via the iff. -/
theorem C9_witness :
    processMatch "p1" (.ok (mdOf matchRawBoolWon)) = some statBoolWon ∧
    statBoolWon.teamWon = false := by
  have h := C9_teamWon_strict_equality "p1" (mdOf matchRawBoolWon) statBoolWon
    "partD" (mkStats "p1") (by decide) (by decide)
  refine ⟨by decide, ?_⟩
  by_contra hne
  have htrue : statBoolWon.teamWon = true := by
    revert hne
    decide
  obtain ⟨r, hr, hwon⟩ := h.mp htrue
  have : r = { participantIds := ["partD"], rank := some 1, won := .bool true } := by
    have hfr : findRoster "partD" (mdOf matchRawBoolWon).included =
        some { participantIds := ["partD"], rank := some 1, won := .bool true } := by
      decide
    rw [hfr] at hr
    exact (Option.some_inj.mp hr).symm
  rw [this] at hwon
  exact absurd hwon (by decide)

/-- C10: a successful player-by-id response whose `relationships`,
`relationships.matches`, or `relationships.matches.data` is absent yields a
successful profile with an empty match-id list, and the aggregate call on
such a player succeeds with an empty sequence. -/
theorem C10_absent_relationships (raw : PlayerRaw) (playerId : String)
    (h : raw.relationships = none ∨
      (∃ rel, raw.relationships = some rel ∧ rel.matchesRel = none) ∨
      (∃ rel mrel, raw.relationships = some rel ∧ rel.matchesRel = some mrel ∧
        mrel.data = none)) :
    ∃ profile, getPlayerById (.ok raw) = .ok profile ∧ profile.matchIds = [] ∧
      ∀ (matchResp : String → Fetch MatchRaw) (limit : Nat),
        getRecentMatchesStats { playerResp := .ok raw, matchResp := matchResp }
          playerId limit = .ok [] := by
  have hids : extractMatchIds raw.relationships = [] := by
    rcases h with h | ⟨rel, h1, h2⟩ | ⟨rel, mrel, h1, h2, h3⟩
    · simp [extractMatchIds, h]
    · simp [extractMatchIds, h1, h2]
    · simp [extractMatchIds, h1, h2, h3]
  refine ⟨_, rfl, hids, ?_⟩
  intro matchResp limit
  simp [getRecentMatchesStats, getPlayerById, hids]

/-- A raw player document with no `relationships` at all. -/
def rawNoRelationships : PlayerRaw :=
  { id := "p1", name := "Alice", shardId := "steam", patchVersion := "1.0",
    relationships := none }

/-- Witness for C10 at a concrete relationships-free player document. -/
theorem C10_witness :
    ∃ profile, getPlayerById (.ok rawNoRelationships) = .ok profile ∧
      profile.matchIds = [] ∧
      getRecentMatchesStats
        { playerResp := .ok rawNoRelationships, matchResp := fun _ => .fail .request }
        "p1" 3 = .ok [] := by
  obtain ⟨profile, h1, h2, h3⟩ :=
    C10_absent_relationships rawNoRelationships "p1" (Or.inl rfl)
  exact ⟨profile, h1, h2, h3 (fun _ => .fail .request) 3⟩
